import Mathlib

/-!
A verification development for nrfeed (server/views.py): a shallow embedding
of the cache-refresh pipeline — the time-boxed lru memo wrapper, the
persisted per-feed cache object, the single-flight lock, and the `feed`
orchestrator — together with theorems settling the specified properties.

Modelling conventions:
* Python exceptions are an explicit `PyExn` value carried in `Except`.
* `time.monotonic_ns()` instants are `Nat` nanoseconds; `time.monotonic()`
  instants (used by the `Cache` object) are `Int` seconds.
* `requests.get(url, timeout=5)` is an environment function
  `http : String → Nat → HttpOutcome` (URL and current time to outcome):
  a returned `Response` or a raised transport exception.
* Effects (network calls made, lock acquired/closed, store writes) are
  returned explicitly so that theorems can speak about them.
-/

/-- Python exception values that the embedded code can raise. -/
inductive PyExn where
  /-- `KeyError`, e.g. from `get_feeds()[name]` on a missing key. -/
  | keyError
  /-- `ValueError`, e.g. raised by `get_feed_name`. -/
  | valueError
  /-- `TypeError`, e.g. Flask `make_response(None)` when `cache.rss` is `None`. -/
  | typeError
  /-- `requests.exceptions.Timeout` from `requests.get(url, timeout=5)`. -/
  | requestTimeout
  /-- `requests.exceptions.ConnectionError` (origin unreachable). -/
  | connectionError
  /-- an exception escaping `generate_rss` on an unparseable payload
      (`json.JSONDecodeError`, `AttributeError` from a failed regex match, ...). -/
  | renderFailure
  deriving Repr, DecidableEq

/-- The parts of a `requests` response the code reads: `req.ok`
(status below 400), `req.status_code`, `req.text`. -/
structure Response where
  ok : Bool
  status_code : Nat
  text : String
  deriving Repr, DecidableEq

/-- Outcome of one raw `requests.get(url, timeout=5)` call: either a
response object (success or failure status alike) or a raised transport
exception (timeout, connection error). -/
inductive HttpOutcome where
  | resp (r : Response)
  | exn (e : PyExn)
  deriving Repr, DecidableEq

/-- `CACHE_TIMEOUT = 300` (seconds): the persisted cache freshness window. -/
def CACHE_TIMEOUT : Int := 300

/-- `func.delta = timeout * 10 ** 9` in the `lru_cache` decorator:
the wrapper window in nanoseconds. -/
def lruDelta (timeout : Nat) : Nat := timeout * 10 ^ 9

/-- State of one `lru_cache(timeout)`-wrapped function: the underlying
`functools.lru_cache(maxsize=128)` table (most recently used first), and
`func.expiration`, the monotonic-ns instant at which the whole table is
cleared. The expiration is global to the wrapper, not per key. -/
structure MemoState where
  table : List (String × Response)
  expiration : Nat
  deriving Repr, DecidableEq

/-- Remove the entry for `url` (first occurrence) from an lru table. -/
def eraseKey : List (String × Response) → String → List (String × Response)
  | [], _ => []
  | (k, v) :: rest, url => if k = url then rest else (k, v) :: eraseKey rest url

/-- `functools.lru_cache` bookkeeping on a hit: the entry moves to the
most-recently-used position. -/
def lruPromote (t : List (String × Response)) (url : String) (r : Response) :
    List (String × Response) :=
  (url, r) :: eraseKey t url

/-- `functools.lru_cache` bookkeeping on a miss that returned: insert at
the most-recently-used position and evict beyond `maxsize = 128`. -/
def lruInsert (t : List (String × Response)) (url : String) (r : Response) :
    List (String × Response) :=
  ((url, r) :: t).take 128

/-- Result of one call through an `lru_cache(timeout)` wrapper: the value
returned (or exception propagated), the wrapper state afterwards, and
whether an outbound network call was performed. -/
structure FetchStep where
  result : Except PyExn Response
  state : MemoState
  outbound : Bool

/-- One call through the `lru_cache(timeout)` wrapper around a network
function `http` at monotonic-ns time `now`:

* `wrapped_func` first checks `time.monotonic_ns() >= func.expiration`;
  if so it clears the whole table and resets the expiration to
  `now + delta` — for every key at once;
* then the underlying `functools.lru_cache` either serves the memoized
  response without any network call, or invokes `http`. A raised
  exception propagates and is not memoized; a returned response
  (failure status included) is memoized. -/
def lruCall (delta : Nat) (http : String → Nat → HttpOutcome) (now : Nat)
    (st : MemoState) (url : String) : FetchStep :=
  let st := if st.expiration ≤ now then { table := [], expiration := now + delta } else st
  match List.lookup url st.table with
  | some r => ⟨.ok r, { st with table := lruPromote st.table url r }, false⟩
  | none =>
    match http url now with
    | .resp r => ⟨.ok r, { st with table := lruInsert st.table url r }, true⟩
    | .exn e => ⟨.error e, st, true⟩

/-- `get_source_url(url)`: `requests.get(url, timeout=5)` behind
`@lru_cache(60)` — "One request per minute per URL" per the source
comment. `delta = 60 * 10 ** 9` nanoseconds. -/
def get_source_url (http : String → Nat → HttpOutcome) (now : Nat)
    (st : MemoState) (url : String) : FetchStep :=
  lruCall (lruDelta 60) http now st url

/-- The `Cache` object persisted per feed name: `name`, `raw` (last fetched
page), `rss` (last rendered document), `timestamp` (monotonic seconds of
the last `set_rss`). `__init__` leaves `raw`/`rss` as `None` and
`timestamp = 0`. -/
structure Cache where
  name : String
  raw : Option String
  rss : Option String
  timestamp : Int
  deriving Repr, DecidableEq

/-- `Cache(key)`: the constructor's defaults. -/
def Cache.mkDefault (key : String) : Cache :=
  { name := key, raw := none, rss := none, timestamp := 0 }

/-- `Cache.set_rss(text)`: store the rendered document and stamp the
current monotonic time. -/
def Cache.set_rss (c : Cache) (text : String) (now : Int) : Cache :=
  { c with rss := some text, timestamp := now }

/-- `Cache.age`: `int(time.monotonic() - self.timestamp)` at monotonic
time `now` (integral seconds, so the `int()` truncation is exact). -/
def Cache.age (c : Cache) (now : Int) : Int :=
  now - c.timestamp

/-- `Cache.response()`: `make_response(self.rss)` with the XML content
type. Flask's `make_response(None)` raises `TypeError`, so an entry whose
`rss` was never set yields an exception, not a document. -/
def Cache.response (c : Cache) : Except PyExn String :=
  match c.rss with
  | some s => .ok s
  | none => .error .typeError

/-- One `feeds.json` registry record as the code reads it: the source
`url` (used by the refresh) and the numeric `id` (used by
`get_feed_name`). Title/author/description/image overrides only affect
the rendered text and are folded into the abstract rendering function. -/
structure Meta where
  url : String
  id : Int
  deriving Repr, DecidableEq

/-- Environment of one invocation of the `feed(name)` body: the loaded
registry (`get_feeds()`, insertion-ordered), the persisted store
(`/dev/shm/nrfeed_<name>.json` files as read by `load_cache`), whether
the abstract-socket lock `\0nrfeed_<name>` is currently free, the value
`get_source_url(meta['url'])` produces during this invocation (a response,
or a propagated transport exception — the memo wrapper is modelled
separately by `lruCall`), the behaviour of `generate_rss(raw, name, meta)`
(a document, or a propagated parse exception), and the monotonic clock in
seconds. -/
structure FeedEnv where
  feeds : List (String × Meta)
  store : String → Option Cache
  lockFree : String → Bool
  fetchResult : Except PyExn Response
  render : String → String → Meta → Except PyExn String
  now : Int

/-- Observable effects of one invocation of the `feed(name)` body:
how many times `get_source_url` was called (each call may reach the
network), whether the lock socket bind was attempted, whether it
succeeded, whether `lock_socket.close()` was executed, whether
`save_cache` ran, and the persisted store afterwards. -/
structure FeedEffects where
  fetchCalls : Nat
  lockTried : Bool
  lockAcquired : Bool
  lockClosed : Bool
  saved : Bool
  store : String → Option Cache

/-- The effects of an invocation that touched nothing. -/
def FeedEffects.none (env : FeedEnv) : FeedEffects :=
  { fetchCalls := 0, lockTried := false, lockAcquired := false,
    lockClosed := false, saved := false, store := env.store }

/-- What an invocation of the `feed` body delivers to the WSGI layer:
a document response, an `abort(404)`, or an uncaught exception
(rendered by Flask as HTTP 500). -/
inductive FeedOutcome where
  | ok (doc : String)
  | abort404
  | exn (e : PyExn)
  deriving Repr, DecidableEq

/-- `cache.response()` as a view return value: `make_response(None)`
raises `TypeError`, surfacing as an uncaught exception. -/
def respond (c : Cache) : FeedOutcome :=
  match c.response with
  | .ok s => .ok s
  | .error e => .exn e

/-- The body of `feed(name)` (the function wrapped by `@lru_cache(10)`),
line by line:

* `meta = get_feeds()[name]` raises `KeyError` for an unknown name; the
  surrounding `except ValueError: abort(404)` does not catch `KeyError`,
  so the exception propagates and the `abort(404)` is unreachable;
* `load_cache(name)` or, on `FileNotFoundError`, a default `Cache(name)`;
* if `cache.age <= CACHE_TIMEOUT`: return `cache.response()` — no lock,
  no `get_source_url` call;
* otherwise bind the abstract socket; on `socket.error` return
  `cache.response()` without fetching;
* `req = get_source_url(meta['url'])`; a raised transport exception
  propagates (lock socket not explicitly closed);
* if `not req.ok`: return `cache.response()` (stale fallback, lock socket
  not explicitly closed, store untouched);
* else `cache.raw = req.text`; `rss = generate_rss(cache.raw, name, meta)`
  — an exception here propagates (lock socket not explicitly closed,
  store untouched); on success `cache.set_rss(rss)`, `save_cache`,
  `lock_socket.close()`, return `cache.response()`. -/
def feedImpl (env : FeedEnv) (name : String) : FeedOutcome × FeedEffects :=
  match List.lookup name env.feeds with
  | none => (.exn .keyError, FeedEffects.none env)
  | some meta =>
    let cache := (env.store name).getD (Cache.mkDefault name)
    if cache.age env.now ≤ CACHE_TIMEOUT then
      (respond cache, FeedEffects.none env)
    else if env.lockFree name then
      let eff := { FeedEffects.none env with
                   lockTried := true, lockAcquired := true, fetchCalls := 1 }
      match env.fetchResult with
      | .error e => (.exn e, eff)
      | .ok req =>
        if req.ok then
          let cache := { cache with raw := some req.text }
          match env.render req.text name meta with
          | .error e => (.exn e, eff)
          | .ok rss =>
            let cache := cache.set_rss rss env.now
            (respond cache,
             { eff with saved := true, lockClosed := true,
                        store := fun k => if k = name then some cache else env.store k })
        else
          (respond cache, eff)
    else
      (respond cache, { FeedEffects.none env with lockTried := true })

/-- `id_.isdigit()` followed by `int(id_)` on ASCII input: `some` of the
decimal value exactly when the string is nonempty and all digits. -/
def pyDigits? (s : String) : Option Nat :=
  if !s.data.isEmpty && s.data.all Char.isDigit then
    some (s.data.foldl (fun acc c => 10 * acc + (c.toNat - 48)) 0)
  else none

/-- `get_feed_name(id_)`: return `id_` if it is a registry key; otherwise,
if `id_.isdigit()`, return the first registry key whose record's `id`
equals `int(id_)`; otherwise raise `ValueError`. -/
def get_feed_name (feeds : List (String × Meta)) (id_ : String) :
    Except PyExn String :=
  if (List.lookup id_ feeds).isSome then .ok id_
  else
    match pyDigits? id_ with
    | some n =>
      match feeds.find? (fun kv => kv.2.id == (n : Int)) with
      | some kv => .ok kv.1
      | none => .error .valueError
    | none => .error .valueError

/-- The `/podcast/<_id>` view: `get_feed_name(_id)`, with `ValueError`
mapped to `abort(404)`, then `feed(name)`. -/
def podcast (env : FeedEnv) (id_ : String) : FeedOutcome × FeedEffects :=
  match get_feed_name env.feeds id_ with
  | .error _ => (.abort404, FeedEffects.none env)
  | .ok name => feedImpl env name

/-!
Interleaving model of two concurrent invocations of the `feed` body for
the same feed name, for the single-flight property. Each invocation is a
thread whose atomic steps mirror the shared-state operations of the
source: the cache load plus staleness check, the abstract-socket bind,
the call through the shared `get_source_url` memo, the render plus
`set_rss` plus `save_cache` write, and the explicit `lock_socket.close()`.
A schedule is a list of (thread, monotonic-ns time) pairs; a thread whose
program has finished ignores further steps. As in the source, the lock
socket is explicitly closed only on the fully successful path (on the
other exits the OS reclaims it only when the process garbage-collects the
socket object, which the model does not credit as a release).
-/

/-- Program counter of one `feed`-body thread past the registry lookup. -/
inductive Phase where
  | check | lock | fetch | save | unlock | done
  deriving Repr, DecidableEq

instance {α β : Type} [DecidableEq α] [DecidableEq β] : DecidableEq (Except α β) := fun a b =>
  match a, b with
  | .ok x, .ok y => if h : x = y then .isTrue (by rw [h]) else .isFalse (by simp [h])
  | .error x, .error y => if h : x = y then .isTrue (by rw [h]) else .isFalse (by simp [h])
  | .ok _, .error _ => .isFalse (by simp)
  | .error _, .ok _ => .isFalse (by simp)

/-- One thread of the two-invocation system: its program counter, its
in-memory `cache` object (`snap`), how many outbound network requests
its `get_source_url` call actually performed, its return value once
finished, and whether its socket bind failed. -/
structure TState where
  pc : Phase
  snap : Cache
  outbound : Nat
  result : Option (Except PyExn String)
  lockFailed : Bool
  deriving Repr, DecidableEq

/-- Fixed data of the two-invocation system: the feed's source URL, the
network behaviour, and the behaviour of `generate_rss` on a fetched
payload. -/
structure SfConfig where
  url : String
  http : String → Nat → HttpOutcome
  render : String → Except PyExn String

/-- Shared state: the lock (`none` = the abstract socket name is
unbound, `some tid` = bound by that thread), the module-level
`get_source_url` memo, the persisted store entry for the feed, and the
two threads (identified by `Bool`). -/
structure Sys where
  lockHolder : Option Bool
  memo : MemoState
  store : Option Cache
  th : Bool → TState

/-- Replace one thread's state. -/
def Sys.setTh (s : Sys) (tid : Bool) (v : TState) : Sys :=
  { s with th := fun b => if b = tid then v else s.th b }

/-- One atomic step of thread `tid` at monotonic-ns time `t`. -/
def sfStep (cfg : SfConfig) (s : Sys) (tid : Bool) (t : Nat) : Sys :=
  let th := s.th tid
  match th.pc with
  | .check =>
    let c := s.store.getD (Cache.mkDefault "feed")
    if c.age (Int.ofNat (t / 10 ^ 9)) ≤ CACHE_TIMEOUT then
      s.setTh tid { th with snap := c, pc := .done, result := some c.response }
    else
      s.setTh tid { th with snap := c, pc := .lock }
  | .lock =>
    match s.lockHolder with
    | none => { s.setTh tid { th with pc := .fetch } with lockHolder := some tid }
    | some _ =>
      s.setTh tid
        { th with pc := .done, lockFailed := true, result := some th.snap.response }
  | .fetch =>
    let fs := get_source_url cfg.http t s.memo cfg.url
    let outb := th.outbound + (if fs.outbound then 1 else 0)
    let s := { s with memo := fs.state }
    match fs.result with
    | .error e =>
      s.setTh tid { th with pc := .done, outbound := outb, result := some (.error e) }
    | .ok req =>
      if req.ok then
        s.setTh tid
          { th with pc := .save, outbound := outb, snap := { th.snap with raw := some req.text } }
      else
        s.setTh tid
          { th with pc := .done, outbound := outb, result := some th.snap.response }
  | .save =>
    match cfg.render (th.snap.raw.getD "") with
    | .error e => s.setTh tid { th with pc := .done, result := some (.error e) }
    | .ok rss =>
      let c := th.snap.set_rss rss (Int.ofNat (t / 10 ^ 9))
      { s.setTh tid { th with pc := .unlock, snap := c } with store := some c }
  | .unlock =>
    { s.setTh tid { th with pc := .done, result := some th.snap.response } with
      lockHolder := none }
  | .done => s

/-- Run a schedule of (thread, time) steps from a state. -/
def sfRun (cfg : SfConfig) (sched : List (Bool × Nat)) (s : Sys) : Sys :=
  sched.foldl (fun s e => sfStep cfg s e.1 e.2) s

/-- A fresh thread about to execute the post-lookup `feed` body. -/
def TState.start : TState :=
  { pc := .check, snap := Cache.mkDefault "feed", outbound := 0,
    result := none, lockFailed := false }

/-- Initial system state: both invocations at the staleness check, the
lock socket unbound, the memo and the persisted entry as the process
last left them. -/
def sfInit (memo : MemoState) (store : Option Cache) : Sys :=
  { lockHolder := none, memo := memo, store := store, th := fun _ => TState.start }

/-- A thread is in the refresh critical section (between a successful
bind and either the explicit close or an early exit). -/
def inCrit (th : TState) : Bool :=
  th.pc == .fetch || th.pc == .save || th.pc == .unlock

lemma setTh_th (s : Sys) (tid b : Bool) (v : TState) :
    (s.setTh tid v).th b = if b = tid then v else s.th b := rfl

lemma setTh_lockHolder (s : Sys) (tid : Bool) (v : TState) :
    (s.setTh tid v).lockHolder = s.lockHolder := rfl

lemma setTh_store (s : Sys) (tid : Bool) (v : TState) :
    (s.setTh tid v).store = s.store := rfl

/-- Inductive invariant of the two-invocation system: a thread in the
critical section holds the lock; the persisted entry always carries a
rendered document once it ever did; a thread that has not yet fetched has
made no outbound request; a thread at the bind step has snapshotted an
entry with a document; and a thread whose bind failed has finished with
no outbound request and with its snapshot's document as its result. -/
def sfInv (s : Sys) : Prop :=
  (∀ b, inCrit (s.th b) = true → s.lockHolder = some b) ∧
  (∃ c, s.store = some c ∧ c.rss.isSome = true) ∧
  (∀ b, ((s.th b).pc = .check ∨ (s.th b).pc = .lock) → (s.th b).outbound = 0) ∧
  (∀ b, (s.th b).pc = .lock → (s.th b).snap.rss.isSome = true) ∧
  (∀ b, (s.th b).lockFailed = true →
     (s.th b).pc = .done ∧ (s.th b).outbound = 0 ∧ (s.th b).snap.rss.isSome = true ∧
     (s.th b).result = some ((s.th b).snap.response))

lemma sfStep_inv (cfg : SfConfig) (s : Sys) (tid : Bool) (t : Nat)
    (h : sfInv s) : sfInv (sfStep cfg s tid t) := by
  obtain ⟨hcrit, ⟨c0, hc0, hc0rss⟩, hout, hlk, hfail⟩ := h
  unfold sfStep
  dsimp only
  split
  case _ hpc =>
    -- pc = check
    split
    case _ hfresh =>
      refine ⟨?_, ⟨c0, hc0, hc0rss⟩, ?_, ?_, ?_⟩ <;>
        intro b hb <;> rcases eq_or_ne b tid with hbt | hbt
      · rw [hbt] at hb; simp [Sys.setTh, inCrit] at hb
      · have := hcrit b (by simpa [Sys.setTh, hbt] using hb)
        simpa [Sys.setTh] using this
      · rw [hbt] at hb ⊢; simp [Sys.setTh] at hb
      · simp [Sys.setTh, hbt] at hb ⊢
        exact hout b hb
      · rw [hbt] at hb ⊢; simp [Sys.setTh] at hb
      · simp [Sys.setTh, hbt] at hb ⊢
        exact hlk b hb
      · rw [hbt] at hb ⊢
        simp [Sys.setTh] at hb
        rcases hfail tid hb with ⟨hd, -, -, -⟩
        rw [hpc] at hd; cases hd
      · simp [Sys.setTh, hbt] at hb ⊢
        exact hfail b hb
    case _ hstale =>
      refine ⟨?_, ⟨c0, hc0, hc0rss⟩, ?_, ?_, ?_⟩ <;>
        intro b hb <;> rcases eq_or_ne b tid with hbt | hbt
      · rw [hbt] at hb; simp [Sys.setTh, inCrit] at hb
      · have := hcrit b (by simpa [Sys.setTh, hbt] using hb)
        simpa [Sys.setTh] using this
      · rw [hbt] at hb ⊢; simp [Sys.setTh]
        exact hout tid (Or.inl hpc)
      · simp [Sys.setTh, hbt] at hb ⊢
        exact hout b hb
      · rw [hbt] at hb ⊢; simp [Sys.setTh]
        simp [hc0, Cache.mkDefault]
        exact hc0rss
      · simp [Sys.setTh, hbt] at hb ⊢
        exact hlk b hb
      · rw [hbt] at hb ⊢
        simp [Sys.setTh] at hb
        rcases hfail tid hb with ⟨hd, -, -, -⟩
        rw [hpc] at hd; cases hd
      · simp [Sys.setTh, hbt] at hb ⊢
        exact hfail b hb
  case _ hpc =>
    -- pc = lock
    split
    case _ hfree =>
      refine ⟨?_, ⟨c0, hc0, hc0rss⟩, ?_, ?_, ?_⟩ <;>
        intro b hb <;> rcases eq_or_ne b tid with hbt | hbt
      · rw [hbt]
      · exfalso
        have := hcrit b (by simpa [Sys.setTh, hbt] using hb)
        rw [hfree] at this; cases this
      · rw [hbt] at hb ⊢; simp [Sys.setTh] at hb
      · simp [Sys.setTh, hbt] at hb ⊢
        exact hout b hb
      · rw [hbt] at hb ⊢; simp [Sys.setTh] at hb
      · simp [Sys.setTh, hbt] at hb ⊢
        exact hlk b hb
      · rw [hbt] at hb ⊢
        simp [Sys.setTh] at hb
        rcases hfail tid hb with ⟨hd, -, -, -⟩
        rw [hpc] at hd; cases hd
      · simp [Sys.setTh, hbt] at hb ⊢
        exact hfail b hb
    case _ hheldby =>
      refine ⟨?_, ⟨c0, hc0, hc0rss⟩, ?_, ?_, ?_⟩ <;>
        intro b hb <;> rcases eq_or_ne b tid with hbt | hbt
      · rw [hbt] at hb; simp [Sys.setTh, inCrit] at hb
      · have := hcrit b (by simpa [Sys.setTh, hbt] using hb)
        simpa [Sys.setTh] using this
      · rw [hbt] at hb ⊢; simp [Sys.setTh] at hb
      · simp [Sys.setTh, hbt] at hb ⊢
        exact hout b hb
      · rw [hbt] at hb ⊢; simp [Sys.setTh] at hb
      · simp [Sys.setTh, hbt] at hb ⊢
        exact hlk b hb
      · rw [hbt] at hb ⊢
        simp [Sys.setTh]
        exact ⟨hout tid (Or.inr hpc), hlk tid hpc⟩
      · simp [Sys.setTh, hbt] at hb ⊢
        exact hfail b hb
  case _ hpc =>
    -- pc = fetch
    have hheld : s.lockHolder = some tid := hcrit tid (by simp [inCrit, hpc])
    have hnf : (s.th tid).lockFailed = false := by
      by_contra hcon
      rcases hfail tid (by simpa using hcon) with ⟨hd, -, -, -⟩
      rw [hpc] at hd; cases hd
    split
    case _ hres =>
      refine ⟨?_, ⟨c0, hc0, hc0rss⟩, ?_, ?_, ?_⟩ <;>
        intro b hb <;> rcases eq_or_ne b tid with hbt | hbt
      · rw [hbt] at hb; simp [Sys.setTh, inCrit] at hb
      · have := hcrit b (by simpa [Sys.setTh, hbt] using hb)
        simpa [Sys.setTh] using this
      · rw [hbt] at hb ⊢; simp [Sys.setTh] at hb
      · simp [Sys.setTh, hbt] at hb ⊢
        exact hout b hb
      · rw [hbt] at hb ⊢; simp [Sys.setTh] at hb
      · simp [Sys.setTh, hbt] at hb ⊢
        exact hlk b hb
      · rw [hbt] at hb ⊢
        simp [Sys.setTh] at hb
        rw [hnf] at hb; cases hb
      · simp [Sys.setTh, hbt] at hb ⊢
        exact hfail b hb
    case _ hres =>
      split
      case _ hok =>
        refine ⟨?_, ⟨c0, hc0, hc0rss⟩, ?_, ?_, ?_⟩ <;>
          intro b hb <;> rcases eq_or_ne b tid with hbt | hbt
        · rw [hbt]; simpa [Sys.setTh] using hheld
        · have := hcrit b (by simpa [Sys.setTh, hbt] using hb)
          simpa [Sys.setTh] using this
        · rw [hbt] at hb ⊢; simp [Sys.setTh] at hb
        · simp [Sys.setTh, hbt] at hb ⊢
          exact hout b hb
        · rw [hbt] at hb ⊢; simp [Sys.setTh] at hb
        · simp [Sys.setTh, hbt] at hb ⊢
          exact hlk b hb
        · rw [hbt] at hb ⊢
          simp [Sys.setTh] at hb
          rw [hnf] at hb; cases hb
        · simp [Sys.setTh, hbt] at hb ⊢
          exact hfail b hb
      case _ hok =>
        refine ⟨?_, ⟨c0, hc0, hc0rss⟩, ?_, ?_, ?_⟩ <;>
          intro b hb <;> rcases eq_or_ne b tid with hbt | hbt
        · rw [hbt] at hb; simp [Sys.setTh, inCrit] at hb
        · have := hcrit b (by simpa [Sys.setTh, hbt] using hb)
          simpa [Sys.setTh] using this
        · rw [hbt] at hb ⊢; simp [Sys.setTh] at hb
        · simp [Sys.setTh, hbt] at hb ⊢
          exact hout b hb
        · rw [hbt] at hb ⊢; simp [Sys.setTh] at hb
        · simp [Sys.setTh, hbt] at hb ⊢
          exact hlk b hb
        · rw [hbt] at hb ⊢
          simp [Sys.setTh] at hb
          rw [hnf] at hb; cases hb
        · simp [Sys.setTh, hbt] at hb ⊢
          exact hfail b hb
  case _ hpc =>
    -- pc = save
    have hheld : s.lockHolder = some tid := hcrit tid (by simp [inCrit, hpc])
    have hnf : (s.th tid).lockFailed = false := by
      by_contra hcon
      rcases hfail tid (by simpa using hcon) with ⟨hd, -, -, -⟩
      rw [hpc] at hd; cases hd
    split
    case _ hrend =>
      refine ⟨?_, ⟨c0, hc0, hc0rss⟩, ?_, ?_, ?_⟩ <;>
        intro b hb <;> rcases eq_or_ne b tid with hbt | hbt
      · rw [hbt] at hb; simp [Sys.setTh, inCrit] at hb
      · have := hcrit b (by simpa [Sys.setTh, hbt] using hb)
        simpa [Sys.setTh] using this
      · rw [hbt] at hb ⊢; simp [Sys.setTh] at hb
      · simp [Sys.setTh, hbt] at hb ⊢
        exact hout b hb
      · rw [hbt] at hb ⊢; simp [Sys.setTh] at hb
      · simp [Sys.setTh, hbt] at hb ⊢
        exact hlk b hb
      · rw [hbt] at hb ⊢
        simp [Sys.setTh] at hb
        rw [hnf] at hb; cases hb
      · simp [Sys.setTh, hbt] at hb ⊢
        exact hfail b hb
    case _ hrend =>
      refine ⟨?_, ⟨_, rfl, by simp [Cache.set_rss]⟩, ?_, ?_, ?_⟩ <;>
        intro b hb <;> rcases eq_or_ne b tid with hbt | hbt
      · rw [hbt]; simpa [Sys.setTh] using hheld
      · have := hcrit b (by simpa [Sys.setTh, hbt] using hb)
        simpa [Sys.setTh] using this
      · rw [hbt] at hb ⊢; simp [Sys.setTh] at hb
      · simp [Sys.setTh, hbt] at hb ⊢
        exact hout b hb
      · rw [hbt] at hb ⊢; simp [Sys.setTh] at hb
      · simp [Sys.setTh, hbt] at hb ⊢
        exact hlk b hb
      · rw [hbt] at hb ⊢
        simp [Sys.setTh] at hb
        rw [hnf] at hb; cases hb
      · simp [Sys.setTh, hbt] at hb ⊢
        exact hfail b hb
  case _ hpc =>
    -- pc = unlock
    have hheld : s.lockHolder = some tid := hcrit tid (by simp [inCrit, hpc])
    have hnf : (s.th tid).lockFailed = false := by
      by_contra hcon
      rcases hfail tid (by simpa using hcon) with ⟨hd, -, -, -⟩
      rw [hpc] at hd; cases hd
    refine ⟨?_, ⟨c0, hc0, hc0rss⟩, ?_, ?_, ?_⟩ <;>
      intro b hb <;> rcases eq_or_ne b tid with hbt | hbt
    · rw [hbt] at hb; simp [Sys.setTh, inCrit] at hb
    · exfalso
      have := hcrit b (by simpa [Sys.setTh, hbt] using hb)
      rw [hheld] at this
      exact hbt (Option.some.inj this).symm
    · rw [hbt] at hb ⊢; simp [Sys.setTh] at hb
    · simp [Sys.setTh, hbt] at hb ⊢
      exact hout b hb
    · rw [hbt] at hb ⊢; simp [Sys.setTh] at hb
    · simp [Sys.setTh, hbt] at hb ⊢
      exact hlk b hb
    · rw [hbt] at hb ⊢
      simp [Sys.setTh] at hb
      rw [hnf] at hb; cases hb
    · simp [Sys.setTh, hbt] at hb ⊢
      exact hfail b hb
  case _ hpc =>
    exact ⟨hcrit, ⟨c0, hc0, hc0rss⟩, hout, hlk, hfail⟩
lemma sfRun_inv (cfg : SfConfig) (sched : List (Bool × Nat)) (s : Sys)
    (h : sfInv s) : sfInv (sfRun cfg sched s) := by
  induction sched generalizing s with
  | nil => exact h
  | cons e rest ih => exact ih _ (sfStep_inv cfg s e.1 e.2 h)

lemma sfInit_inv (memo : MemoState) (c : Cache) (hrss : c.rss.isSome = true) :
    sfInv (sfInit memo (some c)) := by
  refine ⟨?_, ⟨c, rfl, hrss⟩, ?_, ?_, ?_⟩ <;>
    intro b hb <;> simp [sfInit, TState.start, inCrit] at hb ⊢

/-- The final state of the two-invocation system after a schedule. -/
def sfFinal (cfg : SfConfig) (sched : List (Bool × Nat)) (memo : MemoState)
    (c : Cache) : Sys :=
  sfRun cfg sched (sfInit memo (some c))

/-- Demonstration configuration: a registered feed whose origin serves a
success response whose body changes at t = 410 s, and a rendering step
that succeeds. -/
def sfDemoCfg : SfConfig :=
  { url := "u",
    http := fun _ t => .resp ⟨true, 200, if t ≤ 410 * 10 ^ 9 then "new1" else "new2"⟩,
    render := fun raw => .ok ("rss-" ++ raw) }

/-- Demonstration memo state: the last global clear of the
`get_source_url` wrapper set its expiration to t = 410 s. -/
def sfDemoMemo : MemoState := ⟨[], 410 * 10 ^ 9⟩

/-- Demonstration persisted entry: last refreshed at monotonic second 0,
holding document "old" — stale at every time past 300 s. -/
def sfDemoEntry : Cache := ⟨"x", some "r0", some "old", 0⟩

/-- Schedule in which both invocations find the entry stale (both checks
precede the first save) and the lock is handed off between them: thread A
binds at 407 s, fetches at 409 s, saves and closes at 409.6 s; thread B,
having checked at 406 s, binds at 411 s and fetches at 412 s — 3 s after
A's fetch, but past the memo wrapper's global expiration at 410 s, so the
memoized response has been cleared and B's call goes back to the
network. -/
def sfDemoSchedBoth : List (Bool × Nat) :=
  [(true, 405 * 10 ^ 9), (false, 406 * 10 ^ 9), (true, 407 * 10 ^ 9),
   (true, 409 * 10 ^ 9), (true, 4095 * 10 ^ 8), (true, 4096 * 10 ^ 8),
   (false, 411 * 10 ^ 9), (false, 412 * 10 ^ 9), (false, 413 * 10 ^ 9),
   (false, 414 * 10 ^ 9)]

/-- Schedule in which thread B attempts the bind at 408 s, while thread A
holds the lock. -/
def sfDemoSchedLoser : List (Bool × Nat) :=
  [(true, 405 * 10 ^ 9), (false, 406 * 10 ^ 9), (true, 407 * 10 ^ 9),
   (false, 408 * 10 ^ 9), (true, 409 * 10 ^ 9), (true, 4095 * 10 ^ 8),
   (true, 4096 * 10 ^ 8)]

/-- C1, counterexample. The claim says that for every pair of concurrent
invocations that both find the persisted entry stale, at most one
performs the upstream fetch. In the schedule `sfDemoSchedBoth` both
invocations overlap in time, both staleness checks see the same stale
persisted entry, neither bind fails — and each invocation performs one
outbound upstream request, because the lock is released between the two
binds and the `get_source_url` memo's global window expires between the
two fetches (which are only 3 seconds apart). -/
theorem feed_single_flight_counterexample :
    ((sfFinal sfDemoCfg sfDemoSchedBoth sfDemoMemo sfDemoEntry).th true).outbound = 1 ∧
    ((sfFinal sfDemoCfg sfDemoSchedBoth sfDemoMemo sfDemoEntry).th false).outbound = 1 ∧
    ((sfFinal sfDemoCfg sfDemoSchedBoth sfDemoMemo sfDemoEntry).th true).lockFailed = false ∧
    ((sfFinal sfDemoCfg sfDemoSchedBoth sfDemoMemo sfDemoEntry).th false).lockFailed = false ∧
    ((sfFinal sfDemoCfg sfDemoSchedBoth sfDemoMemo sfDemoEntry).th false).result =
      some (.ok "rss-new2") :=
  ⟨rfl, rfl, rfl, rfl, rfl⟩

/-- C1, amended: in every schedule of two concurrent invocations for the
same feed, started on a persisted entry that carries a document, the
lock-protected refresh sections are mutually exclusive (so two upstream
fetches never run concurrently), and any invocation whose bind fails
performs no upstream fetch and returns a previously rendered document
without error. (As `feed_single_flight_counterexample` shows, two
overlapping invocations can still fetch one after the other, so "at most
one fetch per concurrent pair" does not hold.) -/
theorem feed_single_flight (cfg : SfConfig) (sched : List (Bool × Nat))
    (memo : MemoState) (c : Cache) (hrss : c.rss.isSome = true) :
    (¬(inCrit ((sfFinal cfg sched memo c).th true) = true ∧
       inCrit ((sfFinal cfg sched memo c).th false) = true)) ∧
    ∀ b, ((sfFinal cfg sched memo c).th b).lockFailed = true →
      ((sfFinal cfg sched memo c).th b).outbound = 0 ∧
      ∃ doc, ((sfFinal cfg sched memo c).th b).result = some (.ok doc) := by
  unfold sfFinal
  obtain ⟨hcrit, -, -, -, hfail⟩ :=
    sfRun_inv cfg sched _ (sfInit_inv memo c hrss)
  constructor
  · rintro ⟨hA, hB⟩
    have h1 := hcrit true hA
    have h2 := hcrit false hB
    rw [h1] at h2; cases h2
  · intro b hb
    rcases hfail b hb with ⟨-, hout0, hsome, hres⟩
    refine ⟨hout0, ?_⟩
    rcases hmatch : ((sfRun cfg sched (sfInit memo (some c))).th b).snap.rss with - | doc
    · rw [hmatch] at hsome; cases hsome
    · exact ⟨doc, by rw [hres]; unfold Cache.response; rw [hmatch]⟩

/-- C1, witness for `feed_single_flight`: the hypothesis holds for the
demonstration entry, and in the loser schedule thread B's failed bind
indeed comes with zero outbound fetches and the pre-refresh document. -/
theorem feed_single_flight_witness :
    sfDemoEntry.rss.isSome = true ∧
    ((¬(inCrit ((sfFinal sfDemoCfg sfDemoSchedLoser sfDemoMemo sfDemoEntry).th true) = true ∧
        inCrit ((sfFinal sfDemoCfg sfDemoSchedLoser sfDemoMemo sfDemoEntry).th false) = true)) ∧
     ∀ b, ((sfFinal sfDemoCfg sfDemoSchedLoser sfDemoMemo sfDemoEntry).th b).lockFailed = true →
       ((sfFinal sfDemoCfg sfDemoSchedLoser sfDemoMemo sfDemoEntry).th b).outbound = 0 ∧
       ∃ doc, ((sfFinal sfDemoCfg sfDemoSchedLoser sfDemoMemo sfDemoEntry).th b).result =
         some (.ok doc)) :=
  ⟨rfl, feed_single_flight sfDemoCfg sfDemoSchedLoser sfDemoMemo sfDemoEntry rfl⟩

/-- Effects common to every invocation that acquired the lock and called
`get_source_url` once: the bind was attempted and succeeded, one
(possibly memo-absorbed) fetch call was made. `lockClosed` and `saved`
stay false and the store stays untouched unless the success path
completes. -/
def lockedEffects (env : FeedEnv) : FeedEffects :=
  { FeedEffects.none env with lockTried := true, lockAcquired := true, fetchCalls := 1 }

/-- C3: for a registered feed name whose loaded persisted entry is within
the freshness window (`age <= CACHE_TIMEOUT`, default 300 s), the `feed`
body returns the cached rendered document and produces no effects at
all: `get_source_url` is never called (hence no network request), the
lock socket is never bound, and the store is untouched. -/
theorem feed_fresh_serves_cache (env : FeedEnv) (name : String) (meta : Meta)
    (c : Cache) (d : String)
    (hmeta : List.lookup name env.feeds = some meta)
    (hstore : env.store name = some c)
    (hfresh : c.age env.now ≤ CACHE_TIMEOUT)
    (hrss : c.rss = some d) :
    feedImpl env name = (.ok d, FeedEffects.none env) := by
  unfold feedImpl
  rw [hmeta]
  simp [hstore, hfresh, respond, Cache.response, hrss]

/-- Demonstration environment for the fresh-cache path: one registered
feed, a persisted entry refreshed at second 0, clock at second 100. -/
def envFresh : FeedEnv :=
  { feeds := [("npr", ⟨"u", 1⟩)],
    store := fun k => if k = "npr" then some ⟨"npr", some "r0", some "old", 0⟩ else none,
    lockFree := fun _ => true,
    fetchResult := .ok ⟨true, 200, "page"⟩,
    render := fun _ _ _ => .ok "newdoc",
    now := 100 }

/-- C3, witness: the fresh-cache theorem applied at `envFresh`. -/
theorem feed_fresh_serves_cache_witness :
    (List.lookup "npr" envFresh.feeds = some ⟨"u", 1⟩ ∧
     envFresh.store "npr" = some ⟨"npr", some "r0", some "old", 0⟩ ∧
     Cache.age ⟨"npr", some "r0", some "old", 0⟩ envFresh.now ≤ CACHE_TIMEOUT ∧
     Cache.rss ⟨"npr", some "r0", some "old", 0⟩ = some "old") ∧
    feedImpl envFresh "npr" = (.ok "old", FeedEffects.none envFresh) :=
  ⟨⟨by decide, by decide, by decide, by decide⟩,
   feed_fresh_serves_cache envFresh "npr" ⟨"u", 1⟩ ⟨"npr", some "r0", some "old", 0⟩
     "old" (by decide) (by decide) (by decide) (by decide)⟩

/-- Stale persisted entry shared by the failure-path demonstrations:
refreshed at second 0 and inspected at second 1000. -/
def staleStore : String → Option Cache :=
  fun k => if k = "npr" then some ⟨"npr", some "r0", some "old", 0⟩ else none

/-- Demonstration environment: stale entry, free lock, transport
exception from `requests.get` (origin unreachable). -/
def envTransport : FeedEnv :=
  { feeds := [("npr", ⟨"u", 1⟩)], store := staleStore, lockFree := fun _ => true,
    fetchResult := .error .connectionError,
    render := fun _ _ _ => .ok "newdoc", now := 1000 }

/-- Demonstration environment: stale entry, free lock, origin returns a
failure status (`req.ok` false). -/
def envBadStatus : FeedEnv :=
  { feeds := [("npr", ⟨"u", 1⟩)], store := staleStore, lockFree := fun _ => true,
    fetchResult := .ok ⟨false, 503, "unavailable"⟩,
    render := fun _ _ _ => .ok "newdoc", now := 1000 }

/-- Demonstration environment: stale entry, free lock, successful fetch,
but `generate_rss` raises on the payload. -/
def envBadRender : FeedEnv :=
  { feeds := [("npr", ⟨"u", 1⟩)], store := staleStore, lockFree := fun _ => true,
    fetchResult := .ok ⟨true, 200, "page"⟩,
    render := fun _ _ _ => .error .renderFailure, now := 1000 }

/-- Demonstration environment: stale entry, free lock, successful fetch
and successful rendering. -/
def envSuccess : FeedEnv :=
  { feeds := [("npr", ⟨"u", 1⟩)], store := staleStore, lockFree := fun _ => true,
    fetchResult := .ok ⟨true, 200, "page"⟩,
    render := fun _ _ _ => .ok "newdoc", now := 1000 }

/-- C2, counterexample. The claim says that whenever the upstream fetch
does not succeed (transport error or non-success status), `feed` returns
the previously cached rendered document. On a transport error
`requests.get` raises, `get_source_url` does not catch, and the
exception propagates out of `feed` — the cached document "old" is not
returned (the persisted entry is indeed left unchanged). -/
theorem feed_transport_error_counterexample :
    (feedImpl envTransport "npr").1 = .exn .connectionError ∧
    (feedImpl envTransport "npr").1 ≠ .ok "old" ∧
    (feedImpl envTransport "npr").2.store "npr" = some ⟨"npr", some "r0", some "old", 0⟩ := by
  refine ⟨rfl, by decide, rfl⟩

/-- C2, amended: during a refresh of a stale entry, if the upstream
returns a non-success status the persisted entry is byte-for-byte
unchanged and `feed` returns `cache.response()` — the previously cached
document when one exists, a `TypeError` (`make_response(None)`) on a
cold start; if the fetch raises a transport error (timeout or
unreachable origin) the persisted entry is unchanged but the exception
propagates to the requester instead of a clean `UpstreamUnavailable`. -/
theorem feed_upstream_failure (env : FeedEnv) (name : String) (meta : Meta) (c : Cache)
    (hmeta : List.lookup name env.feeds = some meta)
    (hc : (env.store name).getD (Cache.mkDefault name) = c)
    (hstale : CACHE_TIMEOUT < c.age env.now)
    (hfree : env.lockFree name = true) :
    (∀ req, env.fetchResult = .ok req → req.ok = false →
       feedImpl env name = (respond c, lockedEffects env)) ∧
    (∀ e, env.fetchResult = .error e →
       feedImpl env name = (.exn e, lockedEffects env)) := by
  constructor
  · intro req hr hok
    unfold feedImpl
    rw [hmeta]
    simp [hc, not_le.mpr hstale, hfree, hr, hok, lockedEffects]
  · intro e he
    unfold feedImpl
    rw [hmeta]
    simp [hc, not_le.mpr hstale, hfree, he, lockedEffects]

/-- C2, witness: `feed_upstream_failure` applied to `envBadStatus`, whose
fetch yields a 503: the entry stays, the old document is served. -/
theorem feed_upstream_failure_witness :
    (List.lookup "npr" envBadStatus.feeds = some ⟨"u", 1⟩ ∧
     (envBadStatus.store "npr").getD (Cache.mkDefault "npr") =
       ⟨"npr", some "r0", some "old", 0⟩ ∧
     CACHE_TIMEOUT < Cache.age ⟨"npr", some "r0", some "old", 0⟩ envBadStatus.now ∧
     envBadStatus.lockFree "npr" = true) ∧
    ((∀ req, envBadStatus.fetchResult = .ok req → req.ok = false →
        feedImpl envBadStatus "npr" =
          (respond ⟨"npr", some "r0", some "old", 0⟩, lockedEffects envBadStatus)) ∧
     (∀ e, envBadStatus.fetchResult = .error e →
        feedImpl envBadStatus "npr" = (.exn e, lockedEffects envBadStatus))) :=
  ⟨⟨by decide, by decide, by decide, by decide⟩,
   feed_upstream_failure envBadStatus "npr" ⟨"u", 1⟩ ⟨"npr", some "r0", some "old", 0⟩
     (by decide) (by decide) (by decide) (by decide)⟩

/-- C5, counterexample. The claim says a refresh whose rendering fails
leaves the persisted entry untouched and returns the previous cached
document. The source calls `generate_rss` outside any try/except, so the
exception propagates to the requester; only the "entry untouched" half
holds. -/
theorem feed_render_error_counterexample :
    (feedImpl envBadRender "npr").1 = .exn .renderFailure ∧
    (feedImpl envBadRender "npr").1 ≠ .ok "old" ∧
    (feedImpl envBadRender "npr").2.store "npr" = some ⟨"npr", some "r0", some "old", 0⟩ ∧
    (feedImpl envBadRender "npr").2.saved = false := by
  refine ⟨rfl, by decide, rfl, rfl⟩

/-- C5, amended: when the fetched payload is structurally unparseable
(`generate_rss` raises), the persisted entry is untouched — `save_cache`
never runs — but the exception propagates out of `feed` to the requester
instead of the stale fallback. -/
theorem feed_render_failure (env : FeedEnv) (name : String) (meta : Meta) (c : Cache)
    (req : Response) (e : PyExn)
    (hmeta : List.lookup name env.feeds = some meta)
    (hc : (env.store name).getD (Cache.mkDefault name) = c)
    (hstale : CACHE_TIMEOUT < c.age env.now)
    (hfree : env.lockFree name = true)
    (hr : env.fetchResult = .ok req) (hok : req.ok = true)
    (hrend : env.render req.text name meta = .error e) :
    feedImpl env name = (.exn e, lockedEffects env) := by
  unfold feedImpl
  rw [hmeta]
  simp [hc, not_le.mpr hstale, hfree, hr, hok, hrend, lockedEffects]

/-- C5, witness: `feed_render_failure` applied to `envBadRender`. -/
theorem feed_render_failure_witness :
    (List.lookup "npr" envBadRender.feeds = some ⟨"u", 1⟩ ∧
     (envBadRender.store "npr").getD (Cache.mkDefault "npr") =
       ⟨"npr", some "r0", some "old", 0⟩ ∧
     CACHE_TIMEOUT < Cache.age ⟨"npr", some "r0", some "old", 0⟩ envBadRender.now ∧
     envBadRender.lockFree "npr" = true ∧
     envBadRender.fetchResult = .ok ⟨true, 200, "page"⟩ ∧
     Response.ok ⟨true, 200, "page"⟩ = true ∧
     envBadRender.render "page" "npr" ⟨"u", 1⟩ = .error .renderFailure) ∧
    feedImpl envBadRender "npr" = (.exn .renderFailure, lockedEffects envBadRender) :=
  ⟨⟨by decide, by decide, by decide, by decide, by decide, by decide, by decide⟩,
   feed_render_failure envBadRender "npr" ⟨"u", 1⟩ ⟨"npr", some "r0", some "old", 0⟩
     ⟨true, 200, "page"⟩ .renderFailure
     (by decide) (by decide) (by decide) (by decide) (by decide) (by decide) (by decide)⟩

/-- C6, counterexample. The claim says the lock is released exactly once
before returning on every exit path. On the failure-status exit
(`return cache.response()` inside the `else`), `lock_socket.close()` is
never executed: the invocation returns with the lock socket still
bound (it is only reclaimed later, when the process garbage-collects
the socket object). -/
theorem feed_lock_release_counterexample :
    (feedImpl envBadStatus "npr").2.lockAcquired = true ∧
    (feedImpl envBadStatus "npr").2.lockClosed = false ∧
    (feedImpl envBadStatus "npr").1 = .ok "old" := by
  refine ⟨rfl, rfl, rfl⟩

/-- C6, amended: an invocation that acquires the lock executes
`lock_socket.close()` exactly on the fully successful path (fetch ok and
rendering ok) before returning; on the fetch-exception, failure-status
and rendering-exception exits it returns (or propagates) without
explicitly closing the lock socket. -/
theorem feed_lock_close_paths (env : FeedEnv) (name : String) (meta : Meta) (c : Cache)
    (hmeta : List.lookup name env.feeds = some meta)
    (hc : (env.store name).getD (Cache.mkDefault name) = c)
    (hstale : CACHE_TIMEOUT < c.age env.now)
    (hfree : env.lockFree name = true) :
    (∀ req rss, env.fetchResult = .ok req → req.ok = true →
       env.render req.text name meta = .ok rss →
       (feedImpl env name).2.lockAcquired = true ∧
       (feedImpl env name).2.lockClosed = true) ∧
    (∀ req, env.fetchResult = .ok req → req.ok = false →
       (feedImpl env name).2.lockAcquired = true ∧
       (feedImpl env name).2.lockClosed = false) ∧
    (∀ e, env.fetchResult = .error e →
       (feedImpl env name).2.lockAcquired = true ∧
       (feedImpl env name).2.lockClosed = false) ∧
    (∀ req e, env.fetchResult = .ok req → req.ok = true →
       env.render req.text name meta = .error e →
       (feedImpl env name).2.lockAcquired = true ∧
       (feedImpl env name).2.lockClosed = false) := by
  refine ⟨?_, ?_, ?_, ?_⟩
  · intro req rss hr hok hrend
    unfold feedImpl
    rw [hmeta]
    simp [hc, not_le.mpr hstale, hfree, hr, hok, hrend]
  · intro req hr hok
    unfold feedImpl
    rw [hmeta]
    simp [hc, not_le.mpr hstale, hfree, hr, hok, FeedEffects.none]
  · intro e he
    unfold feedImpl
    rw [hmeta]
    simp [hc, not_le.mpr hstale, hfree, he, FeedEffects.none]
  · intro req e hr hok hrend
    unfold feedImpl
    rw [hmeta]
    simp [hc, not_le.mpr hstale, hfree, hr, hok, hrend, FeedEffects.none]

/-- C6, witness: `feed_lock_close_paths` applied to `envSuccess` (a
successful refresh closes the lock socket; the other branches hold
vacuously there). -/
theorem feed_lock_close_paths_witness :
    (List.lookup "npr" envSuccess.feeds = some ⟨"u", 1⟩ ∧
     (envSuccess.store "npr").getD (Cache.mkDefault "npr") =
       ⟨"npr", some "r0", some "old", 0⟩ ∧
     CACHE_TIMEOUT < Cache.age ⟨"npr", some "r0", some "old", 0⟩ envSuccess.now ∧
     envSuccess.lockFree "npr" = true) ∧
    ((∀ req rss, envSuccess.fetchResult = .ok req → req.ok = true →
        envSuccess.render req.text "npr" ⟨"u", 1⟩ = .ok rss →
        (feedImpl envSuccess "npr").2.lockAcquired = true ∧
        (feedImpl envSuccess "npr").2.lockClosed = true) ∧
     (∀ req, envSuccess.fetchResult = .ok req → req.ok = false →
        (feedImpl envSuccess "npr").2.lockAcquired = true ∧
        (feedImpl envSuccess "npr").2.lockClosed = false) ∧
     (∀ e, envSuccess.fetchResult = .error e →
        (feedImpl envSuccess "npr").2.lockAcquired = true ∧
        (feedImpl envSuccess "npr").2.lockClosed = false) ∧
     (∀ req e, envSuccess.fetchResult = .ok req → req.ok = true →
        envSuccess.render req.text "npr" ⟨"u", 1⟩ = .error e →
        (feedImpl envSuccess "npr").2.lockAcquired = true ∧
        (feedImpl envSuccess "npr").2.lockClosed = false)) :=
  ⟨⟨by decide, by decide, by decide, by decide⟩,
   feed_lock_close_paths envSuccess "npr" ⟨"u", 1⟩ ⟨"npr", some "r0", some "old", 0⟩
     (by decide) (by decide) (by decide) (by decide)⟩

/-- Demonstration environment with a single registered feed and an empty
persisted store, clock at second 1000. -/
def envU : FeedEnv :=
  { feeds := [("npr", ⟨"u", 1⟩)], store := fun _ => none, lockFree := fun _ => true,
    fetchResult := .ok ⟨true, 200, "p"⟩, render := fun _ _ _ => .ok "doc", now := 1000 }

/-- C4: the claim (and the source comment "Return 404 if feed not in
feeds.json") says `feed` fails with `NotFound`/404 for a name that is not
a registry key. But `get_feeds()[name]` raises `KeyError`, and the
surrounding handler catches only `ValueError`, so `feed("wbur")` ends in
an uncaught `KeyError` (HTTP 500), never in `abort(404)`. Only the
`/podcast/<_id>` route produces a 404, because `get_feed_name` raises
`ValueError` before `feed` is ever called. -/
theorem feed_unknown_name_keyerror :
    (feedImpl envU "wbur").1 = .exn .keyError ∧
    (feedImpl envU "wbur").1 ≠ .abort404 ∧
    (podcast envU "wbur").1 = .abort404 := by
  refine ⟨rfl, by decide, by decide⟩

/-- Demonstration environment for a host freshly booted 100 s ago:
registered feed, no persisted cache file, monotonic clock at 100 s. -/
def envBoot : FeedEnv :=
  { feeds := [("npr", ⟨"u", 1⟩)], store := fun _ => none, lockFree := fun _ => true,
    fetchResult := .ok ⟨true, 200, "p"⟩, render := fun _ _ _ => .ok "doc", now := 100 }

/-- C9, counterexample. The claim says a never-refreshed (default) entry
has effectively infinite age. A default `Cache` has `timestamp = 0`, so
its age equals the raw monotonic reading — the time since host boot, not
infinity. At monotonic second 100 the default entry's age is 100, within
the freshness window, so the `feed` body even serves it as fresh: it
makes no fetch and returns `make_response(None)`'s `TypeError`. -/
theorem cache_default_age_counterexample :
    (Cache.mkDefault "npr").age 100 = 100 ∧
    (Cache.mkDefault "npr").age 100 ≤ CACHE_TIMEOUT ∧
    (feedImpl envBoot "npr").1 = .exn .typeError ∧
    (feedImpl envBoot "npr").2.fetchCalls = 0 := by
  refine ⟨rfl, by decide, rfl, rfl⟩

/-- C9, amended: `age()` equals now − `timestamp` and is nonnegative
whenever `now` is at or after the entry's `timestamp` (which holds for
entries stamped by the same monotonic clock, including entries reloaded
from /dev/shm by a fresh process within the same host boot); a default
entry's age equals the raw monotonic reading (time since boot), which is
finite and need not exceed the freshness window. -/
theorem cache_age_formula (c : Cache) (now : Int) (hmono : c.timestamp ≤ now) :
    c.age now = now - c.timestamp ∧ 0 ≤ c.age now ∧
    ∀ k, (Cache.mkDefault k).age now = now := by
  refine ⟨rfl, sub_nonneg.mpr hmono, fun k => by simp [Cache.age, Cache.mkDefault]⟩

/-- C9, witness: `cache_age_formula` at a concrete entry and instant. -/
theorem cache_age_formula_witness :
    Cache.timestamp ⟨"x", none, some "d", 5⟩ ≤ 7 ∧
    (Cache.age ⟨"x", none, some "d", 5⟩ 7 = 7 - Cache.timestamp ⟨"x", none, some "d", 5⟩ ∧
     0 ≤ Cache.age ⟨"x", none, some "d", 5⟩ 7 ∧
     ∀ k, (Cache.mkDefault k).age 7 = 7) :=
  ⟨by decide, cache_age_formula ⟨"x", none, some "d", 5⟩ 7 (by decide)⟩

/-- C10: for a request identifier that is not a registry key, `podcast`
serves the feed of the first registry entry (in registry insertion
order) whose `id` equals the identifier's integer value when the
identifier is all digits and such an entry exists, and otherwise
responds 404 via `get_feed_name`'s `ValueError`. (`List.find?` returns
the first match, mirroring the `for key, value in feeds.items()` loop.) -/
theorem podcast_numeric_fallback (env : FeedEnv) (id_ : String)
    (hnokey : List.lookup id_ env.feeds = none) :
    (∀ n kv, pyDigits? id_ = some n →
       env.feeds.find? (fun p => p.2.id == (n : Int)) = some kv →
       podcast env id_ = feedImpl env kv.1) ∧
    (∀ n, pyDigits? id_ = some n →
       env.feeds.find? (fun p => p.2.id == (n : Int)) = none →
       podcast env id_ = (.abort404, FeedEffects.none env)) ∧
    (pyDigits? id_ = none → podcast env id_ = (.abort404, FeedEffects.none env)) := by
  refine ⟨?_, ?_, ?_⟩
  · intro n kv hn hfind
    unfold podcast get_feed_name
    rw [hnokey]
    simp [hn, hfind]
  · intro n hn hfind
    unfold podcast get_feed_name
    rw [hnokey]
    simp [hn, hfind]
  · intro hn
    unfold podcast get_feed_name
    rw [hnokey]
    simp [hn]

/-- Demonstration registry with duplicate numeric ids, for the
first-match rule of `get_feed_name`. -/
def envRegistry : FeedEnv :=
  { feeds := [("alpha", ⟨"u", 3⟩), ("beta", ⟨"v", 7⟩), ("gamma", ⟨"w", 7⟩)],
    store := staleStore, lockFree := fun _ => true,
    fetchResult := .ok ⟨true, 200, "p"⟩, render := fun _ _ _ => .ok "doc", now := 50 }

/-- C10, witness: `podcast_numeric_fallback` at identifier "7", which is
no registry key: the first entry with id 7 ("beta") is served. -/
theorem podcast_numeric_fallback_witness :
    List.lookup "7" envRegistry.feeds = none ∧
    ((∀ n kv, pyDigits? "7" = some n →
        envRegistry.feeds.find? (fun p => p.2.id == (n : Int)) = some kv →
        podcast envRegistry "7" = feedImpl envRegistry kv.1) ∧
     (∀ n, pyDigits? "7" = some n →
        envRegistry.feeds.find? (fun p => p.2.id == (n : Int)) = none →
        podcast envRegistry "7" = (.abort404, FeedEffects.none envRegistry)) ∧
     (pyDigits? "7" = none →
        podcast envRegistry "7" = (.abort404, FeedEffects.none envRegistry))) :=
  ⟨by decide, podcast_numeric_fallback envRegistry "7" (by decide)⟩

/-- The `get_source_url` wrapper state as initialized at import time 0:
empty table, first global expiration at 60 s. -/
def memoAtImport : MemoState := ⟨[], 60 * 10 ^ 9⟩

/-- An origin whose page content changes at t = 60 s. -/
def originChanging : String → Nat → HttpOutcome :=
  fun _ t => .resp ⟨true, 200, if t ≤ 60 * 10 ^ 9 then "v1" else "v2"⟩

/-- First call: t = 59 s, before the global expiration. -/
def gsuCall1 : FetchStep := get_source_url originChanging (59 * 10 ^ 9) memoAtImport "u"

/-- Second call for the same URL 2 s later: t = 61 s, past the global
expiration. -/
def gsuCall2 : FetchStep := get_source_url originChanging (61 * 10 ^ 9) gsuCall1.state "u"

/-- C7: the claim (and the source comment "One request per minute per
URL") says a call within 60 time units of a previous call with the same
URL returns the identical response and makes no new outbound request.
But the wrapper's expiration is global, not per URL: a call at t = 59 s
(memoized, one outbound request) followed by a call for the same URL at
t = 61 s finds the whole table cleared, so the second call — 2 s after
the first — performs a second outbound request and returns a different
response when the origin changed in between. -/
theorem get_source_url_window_straddle :
    gsuCall1.outbound = true ∧ gsuCall2.outbound = true ∧
    gsuCall1.result = .ok ⟨true, 200, "v1"⟩ ∧
    gsuCall2.result = .ok ⟨true, 200, "v2"⟩ ∧
    gsuCall1.result ≠ gsuCall2.result := by
  refine ⟨rfl, rfl, rfl, rfl, by decide⟩

/-- An origin that always times out. -/
def httpTimeout : String → Nat → HttpOutcome := fun _ _ => .exn .requestTimeout

/-- C8, counterexample. The claim says a timed-out request yields a
non-success response value. `requests.get(url, timeout=5)` raises
`requests.exceptions.Timeout`; neither the `lru_cache` wrapper nor
`get_source_url` catches it, so the caller receives a propagated
exception, not a response value. -/
theorem get_source_url_timeout_counterexample :
    (get_source_url httpTimeout 0 memoAtImport "u").result = .error .requestTimeout ∧
    (get_source_url httpTimeout 0 memoAtImport "u").outbound = true :=
  ⟨rfl, rfl⟩

/-- C8, amended: on a memo miss, a remote failure status is returned to
the caller as a non-success response value (`req.ok` false), uniform
with success responses; but a timeout or transport error is a raised
exception that propagates to the caller (and is not memoized). -/
theorem get_source_url_failure_modes (http : String → Nat → HttpOutcome)
    (now : Nat) (st : MemoState) (url : String)
    (hmiss : List.lookup url st.table = none) :
    (∀ r, http url now = .resp r →
       (get_source_url http now st url).result = .ok r ∧
       (get_source_url http now st url).outbound = true) ∧
    (∀ e, http url now = .exn e →
       (get_source_url http now st url).result = .error e ∧
       (get_source_url http now st url).outbound = true) := by
  constructor
  · intro r hr
    unfold get_source_url lruCall
    by_cases hexp : st.expiration ≤ now
    · simp [hexp, hr]
    · simp [hexp, hmiss, hr]
  · intro e he
    unfold get_source_url lruCall
    by_cases hexp : st.expiration ≤ now
    · simp [hexp, he]
    · simp [hexp, hmiss, he]

/-- An origin that always answers 503. -/
def httpBadStatus : String → Nat → HttpOutcome := fun _ _ => .resp ⟨false, 503, "boom"⟩

/-- C8, witness: `get_source_url_failure_modes` on an empty memo against
the 503 origin — the non-success response is handed back as a value. -/
theorem get_source_url_failure_modes_witness :
    List.lookup "u" memoAtImport.table = none ∧
    ((∀ r, httpBadStatus "u" 0 = .resp r →
        (get_source_url httpBadStatus 0 memoAtImport "u").result = .ok r ∧
        (get_source_url httpBadStatus 0 memoAtImport "u").outbound = true) ∧
     (∀ e, httpBadStatus "u" 0 = .exn e →
        (get_source_url httpBadStatus 0 memoAtImport "u").result = .error e ∧
        (get_source_url httpBadStatus 0 memoAtImport "u").outbound = true)) :=
  ⟨rfl, get_source_url_failure_modes httpBadStatus 0 memoAtImport "u" rfl⟩
